import Mathlib

/-!
Shallow embedding of the dggarchiver notifier service.

The Go sources embedded here:
* `platforms/implementation` (the scheduler loop `LaunchLoop` with its backoff),
* `platforms/yt/api.go` (`API.CheckLivestream`, `getLivestreamID`, `getVideoInfo`),
* `platforms/yt/scraper.go` (`Scraper.CheckLivestream`, `scrape`, `getVideoInfo`),
* `platforms/kick/kick.go` (`ScrapeKickStream`, `LoopScrapedLivestream`),
* `notifications/notifications.go` (the receive/send templates).

External effects (HTTP queries, NATS publish, JSON marshal, lua hooks,
notifications, `state.Dump`) are modelled as oracle inputs and as an event
trace, so each `CheckLivestream` becomes a pure function from the current
persisted state plus the outcomes of its external calls to the new state,
the trace of side effects, and the Go return value.
-/

set_option maxRecDepth 4096

namespace Notifier

/-- The `dggarchivermodel.VOD` job record.  Field names follow the Go model
(the older model used by kick.go calls the stream identifier `ID`, the newer
one `VID`; both denote the same platform-scoped stream identifier, modelled
here as `vid`).  Go zero values are the defaults. -/
structure VOD where
  platform : String := ""
  vid : String := ""
  playbackURL : String := ""
  pubTime : String := ""
  title : String := ""
  startTime : String := ""
  endTime : String := ""
  thumbnail : String := ""
  quality : String := ""
  tags : List String := []
  downloader : String := ""
  workerProxy : String := ""
  deriving Repr, DecidableEq

/-- The platforms the binary registers (main.go imports kick, rumble and yt). -/
inductive PlatformName where
  | youtube
  | kick
  | rumble
  deriving Repr, DecidableEq

def PlatformName.all : List PlatformName := [.youtube, .kick, .rumble]

/-- The Current-Stream Registry: one entry per platform, the VOD currently
believed live there, or the zero VOD when the platform is not live. -/
structure CurrentStreams where
  youtube : VOD := {}
  kick : VOD := {}
  rumble : VOD := {}
  deriving Repr, DecidableEq

def CurrentStreams.entry (cs : CurrentStreams) : PlatformName → VOD
  | .youtube => cs.youtube
  | .kick => cs.kick
  | .rumble => cs.rumble

def CurrentStreams.setEntry (cs : CurrentStreams) : PlatformName → VOD → CurrentStreams
  | .youtube, v => { cs with youtube := v }
  | .kick, v => { cs with kick := v }
  | .rumble, v => { cs with rumble := v }

/-- The persisted `state.State`: the Dispatch Ledger (`SentVODs`), the
Current-Stream Registry and the YouTube conditional-fetch token. -/
structure State where
  sentVODs : List String := []
  currentStreams : CurrentStreams := {}
  searchETag : String := ""
  deriving Repr, DecidableEq

/-- The slice of the process configuration the embedded functions read:
priority ranks (lower number = higher priority), the plugin/notification
flags, the NATS topic and the static YouTube capture hints. -/
structure Config where
  ytPriority : Nat := 0
  kickPriority : Nat := 1
  rumblePriority : Nat := 2
  pluginEnabled : Bool := false
  notifyOnReceive : Bool := false
  notifyOnSend : Bool := false
  natsTopic : String := ""
  ytQuality : String := ""
  ytTags : List String := []
  ytWorkerProxy : String := ""
  ytDownloader : String := ""
  deriving Repr, DecidableEq

def Config.rank (cfg : Config) : PlatformName → Nat
  | .youtube => cfg.ytPriority
  | .kick => cfg.kickPriority
  | .rumble => cfg.rumblePriority

/-- Modelled from the spec: `state.State.CheckPriority` lives in the `state`
package, which is not under src/ (only its callers in yt/api.go and
yt/scraper.go are).  Per the spec's Priority Arbiter contract, a platform is
allowed to dispatch iff every platform with strictly higher priority rank
(strictly lower rank number) has an empty Current-Stream Registry entry; an
entry is empty when its stream identifier is the zero value (the emptiness
test kick.go uses inline). -/
def CheckPriority (p : PlatformName) (cfg : Config) (cs : CurrentStreams) : Bool :=
  PlatformName.all.all fun q =>
    !(cfg.rank q < cfg.rank p) || ((cs.entry q).vid == "")

/-- One observable side effect of a `CheckLivestream` invocation, in program
order: a `state.Dump()` call, a registry write, a ledger append, a NATS
publish attempt, a notification send, a lua hook call, a health check. -/
inductive Ev where
  | dump
  | registrySet (p : PlatformName) (v : VOD)
  | registryClear (p : PlatformName)
  | ledgerInsert (key : String)
  | publishAttempt (topic : String) (payload : VOD)
  | notifyReceiveMsg (msg : String)
  | notifySendMsg (msg : String)
  | luaReceive (id : String)
  | luaSend (payload : VOD)
  | healthCheck
  deriving Repr, DecidableEq

/-- The Go return/termination behaviour of one `CheckLivestream` call:
`ok` = returned nil, `failure` = returned a non-nil error,
`nilDeref` = runtime nil-pointer dereference (process crash),
`fatalExit` = `log.Fatalf` (process exit). -/
inductive Outcome where
  | ok
  | failure
  | nilDeref
  | fatalExit
  deriving Repr, DecidableEq

/-- Result of one `CheckLivestream` invocation: the new persisted state, the
event trace in program order, and how the call returned. -/
structure CheckOut where
  state : State
  events : List Ev
  result : Outcome
  deriving Repr, DecidableEq

/-! ## notifications/notifications.go

The two fixed `text/template` templates.  A template is a list of tokens
(literals and field references); `render` is template execution. -/

inductive Tok where
  | lit (s : String)
  | fieldPlatform
  | fieldVID
  deriving Repr, DecidableEq

/-- The parsed `receive` template: `"Platform: {{ .Platform }}\nID: {{ .VID }}"`. -/
def receiveTemplate : List Tok :=
  [.lit "Platform: ", .fieldPlatform, .lit "\nID: ", .fieldVID]

/-- The parsed `send` template: also `"Platform: {{ .Platform }}\nID: {{ .VID }}"`
(the Go source joins the same two lines for both templates). -/
def sendTemplate : List Tok :=
  [.lit "Platform: ", .fieldPlatform, .lit "\nID: ", .fieldVID]

def render (t : List Tok) (platform vid : String) : String :=
  t.foldl (fun acc tok =>
    match tok with
    | .lit s => acc ++ s
    | .fieldPlatform => acc ++ platform
    | .fieldVID => acc ++ vid) ""

/-- `notifications.GetReceiveMessage`. -/
def GetReceiveMessage (platform id : String) : String :=
  render receiveTemplate platform id

/-- `notifications.GetSendMessage`: executes the send template against the
full VOD; the template only references `.Platform` and `.VID`. -/
def GetSendMessage (vod : VOD) : String :=
  render sendTemplate vod.platform vod.vid

/-! ## platforms/implementation (LaunchLoop backoff)

`LaunchLoop` keeps an integer `timeout`; before each check it sleeps
`timeout` seconds when `timeout > 0`.  After a failed check the switch
statement updates it; after a successful check it is reset to 0. -/

/-- The `switch` in `LaunchLoop` run after a failed check:
`timeout == 0 → 1`; `1 <= timeout <= 32 → timeout * 2`; otherwise unchanged. -/
def nextTimeout (timeout : Nat) : Nat :=
  if timeout == 0 then 1
  else if 1 ≤ timeout ∧ timeout ≤ 32 then timeout * 2
  else timeout

/-- One scheduler-loop iteration's update of `timeout` given whether
`CheckLivestream` returned an error. -/
def loopStep (timeout : Nat) (checkFailed : Bool) : Nat :=
  if checkFailed then nextTimeout timeout else 0

/-- The `timeout` value after `n` consecutive failures starting from a fresh
loop (or from any successful check, which resets `timeout` to 0).  This is
the sleep duration before the `n`-th retry. -/
def timeoutAfter : Nat → Nat
  | 0 => 0
  | n + 1 => nextTimeout (timeoutAfter n)

/-! ## platforms/yt/api.go

`getLivestreamID` runs the YouTube search-list query with the stored etag;
on a hit it runs a videos-list query for the first item.  The oracles below
are the outcomes of those two HTTP calls. -/

/-- A `googleapi` error: the only property the code inspects is
`googleapi.IsNotModified`. -/
structure GError where
  notModified : Bool
  deriving Repr, DecidableEq

/-- One item of the videos-list response, with the fields CheckLivestream
reads. -/
structure Video where
  id : String := ""
  publishedAt : String := ""
  title : String := ""
  actualStartTime : String := ""
  actualEndTime : String := ""
  thumbnailMediumURL : String := ""
  deriving Repr, DecidableEq

/-- Outcome of the search-list call: an error, or a response with its item
video ids and its etag. -/
inductive SearchResult where
  | fail (e : GError)
  | resp (items : List String) (etag : String)
  deriving Repr, DecidableEq

/-- Outcome of the videos-list call: an error, or a response with its items
and its etag. -/
inductive VideosResult where
  | fail (e : GError)
  | resp (items : List Video) (etag : String)
  deriving Repr, DecidableEq

/-- `API.getVideoInfo`: returns the response items and etag, or `(nil, etag
in, err)` on error. -/
def getVideoInfo (etag : String) (q : VideosResult) :
    List Video × String × Option GError :=
  match q with
  | .fail e => ([], etag, some e)
  | .resp items e => (items, e, none)

/-- `API.getLivestreamID`: on search error returns `(nil, etag in, err)`;
with items, runs `getVideoInfo` on the first item (both its error branches
return the same `(id, resp.Etag, nil)`, so inner errors are swallowed); with
no items returns `(nil, resp.Etag, nil)`. -/
def getLivestreamID (etag : String) (search : SearchResult) (videosQ : VideosResult) :
    List Video × String × Option GError :=
  match search with
  | .fail e => ([], etag, some e)
  | .resp items setag =>
    if items.length > 0 then
      let r := getVideoInfo "" videosQ
      (r.1, setag, none)
    else
      ([], setag, none)

/-- The job record `API.CheckLivestream` builds from the first videos-list
item and the static YouTube configuration. -/
def apiVOD (cfg : Config) (v : Video) : VOD :=
  { platform := "youtube", vid := v.id, pubTime := v.publishedAt,
    title := v.title, startTime := v.actualStartTime,
    endTime := v.actualEndTime, thumbnail := v.thumbnailMediumURL,
    quality := cfg.ytQuality, tags := cfg.ytTags,
    workerProxy := cfg.ytWorkerProxy }

/-- `API.CheckLivestream` (platforms/yt/api.go).  Oracles: the two query
outcomes, whether `json.Marshal` succeeds, whether the NATS publish
succeeds. -/
def apiCheckLivestream (cfg : Config) (s : State) (search : SearchResult)
    (videosQ : VideosResult) (marshalOk publishOk : Bool) : CheckOut :=
  match getLivestreamID s.searchETag search videosQ with
  | (vid, etagEnd, e) =>
    match e with
    | some err =>
      if err.notModified then ⟨s, [], .ok⟩ else ⟨s, [], .failure⟩
    | none =>
      let s1 : State := { s with searchETag := etagEnd }
      match vid with
      | v :: _ =>
        let key := "youtube:" ++ v.id
        if s1.sentVODs.contains key then
          ⟨s1, [Ev.dump, Ev.healthCheck], .ok⟩
        else if CheckPriority .youtube cfg s1.currentStreams then
          let recvEvs :=
            if cfg.notifyOnReceive then
              [Ev.notifyReceiveMsg (GetReceiveMessage "YouTube" v.id)]
            else []
          let vod := apiVOD cfg v
          let s2 : State :=
            { s1 with currentStreams := { s1.currentStreams with youtube := vod } }
          if !marshalOk then
            ⟨s2, [Ev.dump] ++ recvEvs ++ [Ev.registrySet .youtube vod], .ok⟩
          else if !publishOk then
            ⟨s2, [Ev.dump] ++ recvEvs ++ [Ev.registrySet .youtube vod,
              Ev.publishAttempt (cfg.natsTopic ++ ".job") vod], .ok⟩
          else
            let sendEvs :=
              if cfg.notifyOnSend then [Ev.notifySendMsg (GetSendMessage vod)] else []
            let s3 : State := { s2 with sentVODs := s2.sentVODs ++ [key] }
            ⟨s3, [Ev.dump] ++ recvEvs ++ [Ev.registrySet .youtube vod,
              Ev.publishAttempt (cfg.natsTopic ++ ".job") vod] ++ sendEvs ++
              [Ev.ledgerInsert key, Ev.dump, Ev.healthCheck], .ok⟩
        else
          ⟨s1, [Ev.dump, Ev.healthCheck], .ok⟩
      | [] =>
        ⟨{ s1 with currentStreams := { s1.currentStreams with youtube := {} } },
          [Ev.dump, Ev.registryClear .youtube, Ev.healthCheck], .ok⟩

/-! ## platforms/kick/kick.go

`ScrapeKickStream` returns `*KickAPI`; on any request/read/unmarshal error it
logs and returns `nil`, so its outcome is modelled as `Option KickAPI`.
`LoopScrapedLivestream` immediately reads `stream.Livestream.IsLive` without
a nil check. -/

structure KickLivestream where
  isLive : Bool := false
  id : Nat := 0
  title : String := ""
  createdAt : String := ""
  thumbnailURL : String := ""
  deriving Repr, DecidableEq

structure KickAPI where
  url : String := ""
  livestream : KickLivestream := {}
  deriving Repr, DecidableEq

/-- The job record `LoopScrapedLivestream` builds from the scraped kick
stream. -/
def kickVOD (stream : KickAPI) : VOD :=
  { platform := "kick", vid := toString stream.livestream.id,
    playbackURL := stream.url, title := stream.livestream.title,
    startTime := stream.livestream.createdAt, endTime := "",
    thumbnail := stream.livestream.thumbnailURL }

/-- `kick.LoopScrapedLivestream`.  `scraped` is the `ScrapeKickStream`
result (`none` = the scrape failed and returned nil).  Dereferencing the nil
pointer (`stream.Livestream.IsLive`) is a runtime panic, modelled as
`Outcome.nilDeref`; `log.Fatalf` on marshal failure is `Outcome.fatalExit`.
Arbitration is inline: kick proceeds only when the YouTube registry entry's
identifier is empty. -/
def kickLoopScrapedLivestream (cfg : Config) (s : State) (scraped : Option KickAPI)
    (marshalOk publishOk : Bool) : CheckOut :=
  match scraped with
  | none => ⟨s, [], .nilDeref⟩
  | some stream =>
    if stream.livestream.isLive then
      let key := "kick:" ++ toString stream.livestream.id
      if !(s.sentVODs.contains key) then
        if s.currentStreams.youtube.vid == "" then
          let recvEvs :=
            if cfg.pluginEnabled then [Ev.luaReceive (toString stream.livestream.id)]
            else []
          let vod := kickVOD stream
          let s1 : State :=
            { s with currentStreams := { s.currentStreams with kick := vod } }
          if !marshalOk then
            ⟨s1, recvEvs ++ [Ev.registrySet .kick vod], .fatalExit⟩
          else if !publishOk then
            ⟨s1, recvEvs ++ [Ev.registrySet .kick vod,
              Ev.publishAttempt (cfg.natsTopic ++ ".job") vod], .ok⟩
          else
            let sendEvs := if cfg.pluginEnabled then [Ev.luaSend vod] else []
            let s2 : State := { s1 with sentVODs := s1.sentVODs ++ [key] }
            ⟨s2, recvEvs ++ [Ev.registrySet .kick vod,
              Ev.publishAttempt (cfg.natsTopic ++ ".job") vod] ++ sendEvs ++
              [Ev.ledgerInsert key, Ev.dump], .ok⟩
        else
          ⟨s, [], .ok⟩
      else
        ⟨s, [], .ok⟩
    else
      ⟨{ s with currentStreams := { s.currentStreams with kick := {} } },
        [Ev.registryClear .kick], .ok⟩

/-! ## platforms/yt/scraper.go

`scrape` collapses every failure (visit error, no match, timeout) into the
empty id string.  `Scraper.getVideoInfo` can return an error (visit error or
unparseable page data), "no info" (cached page or timeout), or the parsed
microdata. -/

structure VideoMicrodata where
  pubTime : String := ""
  title : String := ""
  startTime : String := ""
  endTime : String := ""
  thumbnail : String := ""
  deriving Repr, DecidableEq

/-- Outcome of `Scraper.getVideoInfo`: `visitErr` = the page visit failed
(error returned), `invalid` = `ErrUnableToParseInfo`, `cachedOrTimeout` =
`(nil, nil)` (cached microdata or channel timeout), `info` = parsed data. -/
inductive InfoResult where
  | visitErr
  | invalid
  | cachedOrTimeout
  | info (d : VideoMicrodata)
  deriving Repr, DecidableEq

/-- The job record `Scraper.CheckLivestream` builds from the scraped id,
the parsed page microdata and the static YouTube configuration. -/
def scraperVOD (cfg : Config) (id : String) (d : VideoMicrodata) : VOD :=
  { platform := "youtube", downloader := cfg.ytDownloader, vid := id,
    pubTime := d.pubTime, title := d.title, startTime := d.startTime,
    endTime := d.endTime, thumbnail := d.thumbnail,
    quality := cfg.ytQuality, tags := cfg.ytTags }

/-- `Scraper.CheckLivestream` (platforms/yt/scraper.go).  `id` is the
`scrape` result (empty string = nothing found, including transport errors
and timeouts). -/
def scraperCheckLivestream (cfg : Config) (s : State) (id : String)
    (infoQ : InfoResult) (marshalOk publishOk : Bool) : CheckOut :=
  if id ≠ "" then
    let key := "youtube:" ++ id
    if !(s.sentVODs.contains key) then
      if CheckPriority .youtube cfg s.currentStreams then
        match infoQ with
        | .visitErr => ⟨s, [], .failure⟩
        | .invalid => ⟨s, [], .failure⟩
        | .cachedOrTimeout => ⟨s, [], .ok⟩
        | .info d =>
          let recvEvs :=
            if cfg.notifyOnReceive then
              [Ev.notifyReceiveMsg (GetReceiveMessage "YouTube" id)]
            else []
          let vod := scraperVOD cfg id d
          let s1 : State :=
            { s with currentStreams := { s.currentStreams with youtube := vod } }
          if !marshalOk then
            ⟨s1, recvEvs ++ [Ev.registrySet .youtube vod], .ok⟩
          else if !publishOk then
            ⟨s1, recvEvs ++ [Ev.registrySet .youtube vod,
              Ev.publishAttempt (cfg.natsTopic ++ ".job") vod], .ok⟩
          else
            let sendEvs :=
              if cfg.notifyOnSend then [Ev.notifySendMsg (GetSendMessage vod)] else []
            let s2 : State := { s1 with sentVODs := s1.sentVODs ++ [key] }
            ⟨s2, recvEvs ++ [Ev.registrySet .youtube vod,
              Ev.publishAttempt (cfg.natsTopic ++ ".job") vod] ++ sendEvs ++
              [Ev.ledgerInsert key, Ev.dump, Ev.healthCheck], .ok⟩
      else
        ⟨s, [Ev.healthCheck], .ok⟩
    else
      ⟨s, [Ev.healthCheck], .ok⟩
  else
    ⟨{ s with currentStreams := { s.currentStreams with youtube := {} } },
      [Ev.registryClear .youtube, Ev.healthCheck], .ok⟩

/-! ## Trace helper predicates -/

/-- Does the trace contain a publish attempt? -/
def hasPublish (evs : List Ev) : Bool :=
  evs.any fun e =>
    match e with
    | .publishAttempt _ _ => true
    | _ => false

/-- Every ledger insertion in the trace is followed (later in program order)
by a `Dump`. -/
def insertFollowedByDump : List Ev → Bool
  | [] => true
  | .ledgerInsert _ :: rest => rest.contains .dump && insertFollowedByDump rest
  | _ :: rest => insertFollowedByDump rest

/-- No `Dump` occurs after a registry clear in the trace. -/
def noDumpAfterClear : List Ev → Bool
  | [] => true
  | .registryClear _ :: rest => !(rest.contains .dump) && noDumpAfterClear rest
  | _ :: rest => noDumpAfterClear rest

/-- Some registry set in the trace is followed (later in program order) by a
`Dump`. -/
def setThenDump : List Ev → Bool
  | [] => false
  | .registrySet _ _ :: rest => rest.contains .dump || setThenDump rest
  | _ :: rest => setThenDump rest

/-! ## Helper lemmas -/

lemma le_or_of_lt_imp {a b : Nat} {P : Prop} (h : b < a → P) : a ≤ b ∨ P := by
  rcases Nat.lt_or_ge b a with hlt | hge
  · exact Or.inr (h hlt)
  · exact Or.inl hge

lemma timeoutAfter_add_seven (n : Nat) : timeoutAfter (n + 7) = 64 := by
  induction n with
  | zero => decide
  | succ m ih =>
    have h : m + 1 + 7 = (m + 7) + 1 := by omega
    rw [h, timeoutAfter, ih]
    decide

lemma getLivestreamID_fail_etag (etag : String) (search : SearchResult)
    (videosQ : VideosResult) (e : GError)
    (h : (getLivestreamID etag search videosQ).2.2 = some e) :
    (getLivestreamID etag search videosQ).2.1 = etag := by
  cases search with
  | fail e2 => rfl
  | resp items setag =>
    simp only [getLivestreamID] at h
    split at h <;> simp_all

/-- Arbitration for YouTube does not depend on YouTube's own registry entry
(only strictly higher ranked platforms are consulted). -/
lemma checkPriority_youtube_set (cfg : Config) (cs : CurrentStreams) (v : VOD) :
    CheckPriority .youtube cfg { cs with youtube := v } = CheckPriority .youtube cfg cs := by
  simp [CheckPriority, PlatformName.all, CurrentStreams.entry, Config.rank, Nat.lt_irrefl]

/-- Run of `API.CheckLivestream` on a live, not-yet-sent, arbitration-approved
stream whose NATS publish fails: registry set, token updated, no ledger
insertion, nil returned. -/
lemma api_publish_fail_run (cfg : Config) (s : State) (ids : List String)
    (etag2 vetag : String) (v : Video) (vs : List Video)
    (hids : 0 < ids.length)
    (hmem : s.sentVODs.contains ("youtube:" ++ v.id) = false)
    (hprio : CheckPriority .youtube cfg s.currentStreams = true) :
    apiCheckLivestream cfg s (.resp ids etag2) (.resp (v :: vs) vetag) true false =
      ⟨{ s with
           searchETag := etag2,
           currentStreams := { s.currentStreams with youtube := apiVOD cfg v } },
        [Ev.dump] ++
          (if cfg.notifyOnReceive then
            [Ev.notifyReceiveMsg (GetReceiveMessage "YouTube" v.id)] else []) ++
          [Ev.registrySet .youtube (apiVOD cfg v),
           Ev.publishAttempt (cfg.natsTopic ++ ".job") (apiVOD cfg v)], .ok⟩ := by
  unfold apiCheckLivestream
  dsimp only
  repeat' split
  all_goals simp_all [getLivestreamID, getVideoInfo]

/-- Run of `API.CheckLivestream` on a live, not-yet-sent, arbitration-approved
stream whose publish succeeds: full dispatch with ledger insertion and dump. -/
lemma api_publish_ok_run (cfg : Config) (s : State) (ids : List String)
    (etag2 vetag : String) (v : Video) (vs : List Video)
    (hids : 0 < ids.length)
    (hmem : s.sentVODs.contains ("youtube:" ++ v.id) = false)
    (hprio : CheckPriority .youtube cfg s.currentStreams = true) :
    apiCheckLivestream cfg s (.resp ids etag2) (.resp (v :: vs) vetag) true true =
      ⟨{ s with
           searchETag := etag2,
           currentStreams := { s.currentStreams with youtube := apiVOD cfg v },
           sentVODs := s.sentVODs ++ ["youtube:" ++ v.id] },
        [Ev.dump] ++
          (if cfg.notifyOnReceive then
            [Ev.notifyReceiveMsg (GetReceiveMessage "YouTube" v.id)] else []) ++
          [Ev.registrySet .youtube (apiVOD cfg v),
           Ev.publishAttempt (cfg.natsTopic ++ ".job") (apiVOD cfg v)] ++
          (if cfg.notifyOnSend then [Ev.notifySendMsg (GetSendMessage (apiVOD cfg v))] else []) ++
          [Ev.ledgerInsert ("youtube:" ++ v.id), Ev.dump, Ev.healthCheck], .ok⟩ := by
  unfold apiCheckLivestream
  dsimp only
  repeat' split
  all_goals simp_all [getLivestreamID, getVideoInfo]

/-- Run of `kick.LoopScrapedLivestream` on a live, not-yet-sent stream with
YouTube idle whose publish fails: registry set, no ledger insertion, nil
returned. -/
lemma kick_publish_fail_run (cfg : Config) (s : State) (stream : KickAPI)
    (hlive : stream.livestream.isLive = true)
    (hmem : s.sentVODs.contains ("kick:" ++ toString stream.livestream.id) = false)
    (harb : s.currentStreams.youtube.vid = "") :
    kickLoopScrapedLivestream cfg s (some stream) true false =
      ⟨{ s with currentStreams := { s.currentStreams with kick := kickVOD stream } },
        (if cfg.pluginEnabled then [Ev.luaReceive (toString stream.livestream.id)] else []) ++
          [Ev.registrySet .kick (kickVOD stream),
           Ev.publishAttempt (cfg.natsTopic ++ ".job") (kickVOD stream)], .ok⟩ := by
  unfold kickLoopScrapedLivestream
  dsimp only
  repeat' split
  all_goals simp_all

/-- Run of `kick.LoopScrapedLivestream` on a live, not-yet-sent stream with
YouTube idle whose publish succeeds: full dispatch with ledger insertion and
dump. -/
lemma kick_publish_ok_run (cfg : Config) (s : State) (stream : KickAPI)
    (hlive : stream.livestream.isLive = true)
    (hmem : s.sentVODs.contains ("kick:" ++ toString stream.livestream.id) = false)
    (harb : s.currentStreams.youtube.vid = "") :
    kickLoopScrapedLivestream cfg s (some stream) true true =
      ⟨{ s with
           currentStreams := { s.currentStreams with kick := kickVOD stream },
           sentVODs := s.sentVODs ++ ["kick:" ++ toString stream.livestream.id] },
        (if cfg.pluginEnabled then [Ev.luaReceive (toString stream.livestream.id)] else []) ++
          [Ev.registrySet .kick (kickVOD stream),
           Ev.publishAttempt (cfg.natsTopic ++ ".job") (kickVOD stream)] ++
          (if cfg.pluginEnabled then [Ev.luaSend (kickVOD stream)] else []) ++
          [Ev.ledgerInsert ("kick:" ++ toString stream.livestream.id), Ev.dump], .ok⟩ := by
  unfold kickLoopScrapedLivestream
  dsimp only
  repeat' split
  all_goals simp_all

/-! ## Claim theorems -/

/-- Claim C1 (arbitration exclusivity): a platform may dispatch iff every
strictly higher-priority platform's registry entry is empty; whenever a
higher-priority platform A has a non-empty entry the decision for any
lower-priority platform B is false, and once A's entry is cleared (the
remaining higher-priority entries being empty) the decision for B is true. -/
theorem checkPriority_exclusivity (cfg : Config) (cs : CurrentStreams)
    (A B : PlatformName)
    (hrank : cfg.rank A < cfg.rank B)
    (hlive : (cs.entry A).vid ≠ "") :
    CheckPriority B cfg cs = false ∧
    ((∀ C, cfg.rank C < cfg.rank B → C ≠ A → (cs.entry C).vid = "") →
      CheckPriority B cfg (cs.setEntry A {}) = true) := by
  constructor
  · cases A <;>
      simp_all [CheckPriority, PlatformName.all, CurrentStreams.entry, Config.rank]
  · intro h
    have hy := h .youtube
    have hk := h .kick
    have hr := h .rumble
    cases A <;> cases B <;>
      simp_all [CheckPriority, PlatformName.all, CurrentStreams.entry,
        CurrentStreams.setEntry, Config.rank] <;>
      solve_by_elim [le_or_of_lt_imp, And.intro]

/-- Witness for C1: with default ranks (YouTube 0, Kick 1) and a live YouTube
entry, Kick is denied; after clearing the YouTube entry, Kick is allowed. -/
theorem checkPriority_exclusivity_witness :
    CheckPriority .kick {} { youtube := { vid := "x" } } = false ∧
    CheckPriority .kick {} (CurrentStreams.setEntry { youtube := { vid := "x" } } .youtube {}) = true := by
  have h := checkPriority_exclusivity {} { youtube := { vid := "x" } } .youtube .kick
    (by decide) (by decide)
  refine ⟨h.1, h.2 ?_⟩
  intro C h1 h2
  cases C <;> simp_all [Config.rank]

/-- Claim C2 (idempotence of detection): when the ledger already contains the
key of the currently live broadcast, each adapter's check publishes nothing,
leaves the ledger unchanged and returns success (the YouTube API adapter
still updates its fetch token and dumps; the other adapters do nothing). -/
theorem check_idempotent :
    (∀ (cfg : Config) (s : State) (ids : List String) (etag2 vetag : String)
       (v : Video) (vs : List Video) (m p : Bool),
       0 < ids.length →
       s.sentVODs.contains ("youtube:" ++ v.id) = true →
       apiCheckLivestream cfg s (.resp ids etag2) (.resp (v :: vs) vetag) m p =
         ⟨{ s with searchETag := etag2 }, [Ev.dump, Ev.healthCheck], .ok⟩) ∧
    (∀ (cfg : Config) (s : State) (stream : KickAPI) (m p : Bool),
       stream.livestream.isLive = true →
       s.sentVODs.contains ("kick:" ++ toString stream.livestream.id) = true →
       kickLoopScrapedLivestream cfg s (some stream) m p = ⟨s, [], .ok⟩) ∧
    (∀ (cfg : Config) (s : State) (id : String) (infoQ : InfoResult) (m p : Bool),
       id ≠ "" →
       s.sentVODs.contains ("youtube:" ++ id) = true →
       scraperCheckLivestream cfg s id infoQ m p = ⟨s, [Ev.healthCheck], .ok⟩) := by
  refine ⟨?_, ?_, ?_⟩
  · intro cfg s ids etag2 vetag v vs m p hids hmem
    unfold apiCheckLivestream
    dsimp only
    repeat' split
    all_goals simp_all [getLivestreamID, getVideoInfo]
  · intro cfg s stream m p hlive hmem
    unfold kickLoopScrapedLivestream
    dsimp only
    repeat' split
    all_goals simp_all
  · intro cfg s id infoQ m p hid hmem
    unfold scraperCheckLivestream
    dsimp only
    repeat' split
    all_goals simp_all

/-- Witness for C2 at concrete already-sent streams on all three adapters. -/
theorem check_idempotent_witness :
    apiCheckLivestream {} { sentVODs := ["youtube:abc"] } (.resp ["abc"] "e2")
        (.resp [{ id := "abc" }] "ve") true true =
      ⟨{ sentVODs := ["youtube:abc"], searchETag := "e2" }, [Ev.dump, Ev.healthCheck], .ok⟩ ∧
    kickLoopScrapedLivestream {} { sentVODs := ["kick:7"] }
        (some { livestream := { isLive := true, id := 7 } }) true true =
      ⟨{ sentVODs := ["kick:7"] }, [], .ok⟩ ∧
    scraperCheckLivestream {} { sentVODs := ["youtube:abc"] } "abc" .cachedOrTimeout true true =
      ⟨{ sentVODs := ["youtube:abc"] }, [Ev.healthCheck], .ok⟩ := by
  refine ⟨check_idempotent.1 {} { sentVODs := ["youtube:abc"] } ["abc"] "e2" "ve"
      { id := "abc" } [] true true (by decide) (by decide),
    check_idempotent.2.1 {} { sentVODs := ["kick:7"] }
      { livestream := { isLive := true, id := 7 } } true true rfl (by decide),
    check_idempotent.2.2 {} { sentVODs := ["youtube:abc"] } "abc" .cachedOrTimeout true true
      (by decide) (by decide)⟩

/-- Claim C3, counterexample: after seven consecutive failures the sleep
before the next retry is 64 time units, not the 32 the claim's schedule
(1, 2, 4, 8, 16, 32, 32, 32, ...) predicts, because the loop doubles the
timeout whenever it is still at most 32, so 32 doubles to 64. -/
theorem backoff_seventh_sleep_is_64 : timeoutAfter 7 = 64 ∧ timeoutAfter 7 ≠ 32 := by
  decide

/-- Claim C3 amended: consecutive failures sleep 1, 2, 4, 8, 16, 32, 64, 64,
64, ... (doubling while the previous timeout is at most 32, hence an
effective cap of 64), and a success resets the counter so the next failure
waits 1 time unit. -/
theorem backoff_schedule :
    (∀ k, 1 ≤ k → k ≤ 6 → timeoutAfter k = 2 ^ (k - 1)) ∧
    (∀ k, 7 ≤ k → timeoutAfter k = 64) ∧
    (∀ t, loopStep t false = 0 ∧ loopStep (loopStep t false) true = 1) := by
  refine ⟨?_, ?_, ?_⟩
  · intro k h1 h6
    interval_cases k <;> decide
  · intro k hk
    obtain ⟨n, rfl⟩ : ∃ n, k = n + 7 := ⟨k - 7, by omega⟩
    exact timeoutAfter_add_seven n
  · intro t
    constructor
    · simp [loopStep]
    · simp [loopStep, nextTimeout]

/-- Witness for C3 amended at concrete iteration counts. -/
theorem backoff_schedule_witness :
    timeoutAfter 3 = 4 ∧ timeoutAfter 9 = 64 ∧ loopStep 13 false = 0 := by
  refine ⟨?_, backoff_schedule.2.1 9 (by omega), (backoff_schedule.2.2 13).1⟩
  have h := backoff_schedule.1 3 (by omega) (by omega)
  norm_num at h
  exact h

/-- Claim C4 (publish-failure non-dedup): when the publish fails, no ledger
key is inserted, the check still returns success, and the next check of the
same still-live broadcast attempts publish again and, succeeding, appends
the key; shown for the YouTube API adapter and the Kick adapter. -/
theorem publish_failure_retry :
    (∀ (cfg : Config) (s : State) (ids : List String) (etag2 vetag etag3 vetag2 : String)
       (v : Video) (vs vs2 : List Video),
       0 < ids.length →
       s.sentVODs.contains ("youtube:" ++ v.id) = false →
       CheckPriority .youtube cfg s.currentStreams = true →
       (apiCheckLivestream cfg s (.resp ids etag2) (.resp (v :: vs) vetag) true false).state.sentVODs = s.sentVODs ∧
       (apiCheckLivestream cfg s (.resp ids etag2) (.resp (v :: vs) vetag) true false).result = .ok ∧
       hasPublish (apiCheckLivestream cfg s (.resp ids etag2) (.resp (v :: vs) vetag) true false).events = true ∧
       hasPublish (apiCheckLivestream cfg
          (apiCheckLivestream cfg s (.resp ids etag2) (.resp (v :: vs) vetag) true false).state
          (.resp ids etag3) (.resp (v :: vs2) vetag2) true true).events = true ∧
       (apiCheckLivestream cfg
          (apiCheckLivestream cfg s (.resp ids etag2) (.resp (v :: vs) vetag) true false).state
          (.resp ids etag3) (.resp (v :: vs2) vetag2) true true).state.sentVODs =
         s.sentVODs ++ ["youtube:" ++ v.id]) ∧
    (∀ (cfg : Config) (s : State) (stream : KickAPI),
       stream.livestream.isLive = true →
       s.sentVODs.contains ("kick:" ++ toString stream.livestream.id) = false →
       s.currentStreams.youtube.vid = "" →
       (kickLoopScrapedLivestream cfg s (some stream) true false).state.sentVODs = s.sentVODs ∧
       (kickLoopScrapedLivestream cfg s (some stream) true false).result = .ok ∧
       hasPublish (kickLoopScrapedLivestream cfg s (some stream) true false).events = true ∧
       hasPublish (kickLoopScrapedLivestream cfg
          (kickLoopScrapedLivestream cfg s (some stream) true false).state (some stream) true true).events = true ∧
       (kickLoopScrapedLivestream cfg
          (kickLoopScrapedLivestream cfg s (some stream) true false).state (some stream) true true).state.sentVODs =
         s.sentVODs ++ ["kick:" ++ toString stream.livestream.id]) := by
  constructor
  · intro cfg s ids etag2 vetag etag3 vetag2 v vs vs2 hids hmem hprio
    rw [api_publish_fail_run cfg s ids etag2 vetag v vs hids hmem hprio]
    dsimp only
    rw [api_publish_ok_run cfg
      { sentVODs := s.sentVODs,
        currentStreams :=
          { youtube := apiVOD cfg v, kick := s.currentStreams.kick,
            rumble := s.currentStreams.rumble },
        searchETag := etag2 }
      ids etag3 vetag2 v vs2 hids hmem
      ((checkPriority_youtube_set cfg s.currentStreams (apiVOD cfg v)).trans hprio)]
    refine ⟨rfl, rfl, ?_, ?_, rfl⟩ <;> simp [hasPublish]
  · intro cfg s stream hlive hmem harb
    rw [kick_publish_fail_run cfg s stream hlive hmem harb]
    dsimp only
    rw [kick_publish_ok_run cfg
      { sentVODs := s.sentVODs,
        currentStreams :=
          { youtube := s.currentStreams.youtube, kick := kickVOD stream,
            rumble := s.currentStreams.rumble },
        searchETag := s.searchETag }
      stream hlive hmem harb]
    refine ⟨rfl, rfl, ?_, ?_, rfl⟩ <;> simp [hasPublish]

/-- Witness for C4: a failed publish on the YouTube API adapter attempts the
publish without inserting the key, and the following check publishes again
and inserts it. -/
theorem publish_failure_retry_witness :
    hasPublish (apiCheckLivestream {} {} (.resp ["abc"] "e2")
        (.resp [{ id := "abc" }] "ve") true false).events = true ∧
    (apiCheckLivestream {} {} (.resp ["abc"] "e2")
        (.resp [{ id := "abc" }] "ve") true false).state.sentVODs = [] ∧
    (apiCheckLivestream {}
        (apiCheckLivestream {} {} (.resp ["abc"] "e2") (.resp [{ id := "abc" }] "ve") true false).state
        (.resp ["abc"] "e3") (.resp [{ id := "abc" }] "ve2") true true).state.sentVODs =
      ["youtube:" ++ "abc"] := by
  have h := publish_failure_retry.1 {} {} ["abc"] "e2" "ve" "e3" "ve2" { id := "abc" } [] []
    (by decide) (by decide) (by decide)
  exact ⟨h.2.2.1, h.1, h.2.2.2.2⟩

/-- Claim C5 (code bug witness): when `ScrapeKickStream` fails and returns
nil, `LoopScrapedLivestream` dereferences the nil pointer instead of
returning an error — the process crashes with the state untouched, instead
of propagating the failure to the scheduler. -/
theorem kick_scrape_nil_crash :
    kickLoopScrapedLivestream {} { sentVODs := ["kick:1"] } none true true =
      ⟨{ sentVODs := ["kick:1"] }, [], .nilDeref⟩ := rfl

/-- Claim C6, counterexample: the Kick adapter's "no longer live" transition
clears a non-empty registry entry without any `Dump` call in the trace, so
the store is not flushed after every arbitration-relevant registry change. -/
theorem registry_clear_without_dump :
    (kickLoopScrapedLivestream {} { currentStreams := { kick := { platform := "kick", vid := "5" } } }
        (some { livestream := { isLive := false } }) true true).state.currentStreams.kick = ({} : VOD) ∧
    ({ platform := "kick", vid := "5" } : VOD) ≠ ({} : VOD) ∧
    (kickLoopScrapedLivestream {} { currentStreams := { kick := { platform := "kick", vid := "5" } } }
        (some { livestream := { isLive := false } }) true true).events.contains Ev.dump = false := by
  refine ⟨rfl, by decide, rfl⟩

/-- Claim C6 amended: in every adapter run, every ledger insertion is
followed by a `Dump`; no `Dump` ever follows a registry clear (the "no
longer live" transition is never flushed); and a `Dump` follows a "became
live" registry set only in runs whose dispatch completed, i.e. whose ledger
grew (so the set is flushed only together with the ledger insertion). -/
theorem dump_discipline :
    (∀ (cfg : Config) (s : State) (search : SearchResult) (videosQ : VideosResult) (m p : Bool),
       insertFollowedByDump (apiCheckLivestream cfg s search videosQ m p).events = true ∧
       noDumpAfterClear (apiCheckLivestream cfg s search videosQ m p).events = true ∧
       (setThenDump (apiCheckLivestream cfg s search videosQ m p).events = true →
         (apiCheckLivestream cfg s search videosQ m p).state.sentVODs ≠ s.sentVODs)) ∧
    (∀ (cfg : Config) (s : State) (scraped : Option KickAPI) (m p : Bool),
       insertFollowedByDump (kickLoopScrapedLivestream cfg s scraped m p).events = true ∧
       noDumpAfterClear (kickLoopScrapedLivestream cfg s scraped m p).events = true ∧
       (setThenDump (kickLoopScrapedLivestream cfg s scraped m p).events = true →
         (kickLoopScrapedLivestream cfg s scraped m p).state.sentVODs ≠ s.sentVODs)) ∧
    (∀ (cfg : Config) (s : State) (id : String) (infoQ : InfoResult) (m p : Bool),
       insertFollowedByDump (scraperCheckLivestream cfg s id infoQ m p).events = true ∧
       noDumpAfterClear (scraperCheckLivestream cfg s id infoQ m p).events = true ∧
       (setThenDump (scraperCheckLivestream cfg s id infoQ m p).events = true →
         (scraperCheckLivestream cfg s id infoQ m p).state.sentVODs ≠ s.sentVODs)) := by
  refine ⟨?_, ?_, ?_⟩
  · intro cfg s search videosQ m p
    unfold apiCheckLivestream
    dsimp only
    repeat' split
    all_goals refine ⟨by simp [insertFollowedByDump], by simp [noDumpAfterClear], ?_⟩
    all_goals intro hst
    all_goals first
      | (exfalso; simp [setThenDump] at hst; done)
      | (intro hcontr; simpa using congrArg List.length hcontr)
  · intro cfg s scraped m p
    unfold kickLoopScrapedLivestream
    dsimp only
    repeat' split
    all_goals refine ⟨by simp [insertFollowedByDump], by simp [noDumpAfterClear], ?_⟩
    all_goals intro hst
    all_goals first
      | (exfalso; simp [setThenDump] at hst; done)
      | (intro hcontr; simpa using congrArg List.length hcontr)
  · intro cfg s id infoQ m p
    unfold scraperCheckLivestream
    dsimp only
    repeat' split
    all_goals refine ⟨by simp [insertFollowedByDump], by simp [noDumpAfterClear], ?_⟩
    all_goals intro hst
    all_goals first
      | (exfalso; simp [setThenDump] at hst; done)
      | (intro hcontr; simpa using congrArg List.length hcontr)

/-- Witness for C6 amended: a completed Kick dispatch has its ledger insert
followed by a dump and its ledger grown. -/
theorem dump_discipline_witness :
    insertFollowedByDump (kickLoopScrapedLivestream {} {}
        (some { livestream := { isLive := true, id := 7 } }) true true).events = true ∧
    (kickLoopScrapedLivestream {} {}
        (some { livestream := { isLive := true, id := 7 } }) true true).state.sentVODs ≠ [] := by
  have h := dump_discipline.2.1 {} {} (some { livestream := { isLive := true, id := 7 } }) true true
  exact ⟨h.1, h.2.2 (by decide)⟩

/-- Claim C7 (conditional-fetch token): after every YouTube API check, the
stored search token equals the token the query returned — on success the
code assigns it, and on failure or a not-modified response the query hands
back the previously stored token, so the equality holds in every case. -/
theorem api_token_matches_query (cfg : Config) (s : State) (search : SearchResult)
    (videosQ : VideosResult) (m p : Bool) :
    (apiCheckLivestream cfg s search videosQ m p).state.searchETag =
      (getLivestreamID s.searchETag search videosQ).2.1 := by
  unfold apiCheckLivestream
  dsimp only
  repeat' split
  all_goals first
    | (exact (getLivestreamID_fail_etag _ _ _ _ (by assumption)).symm)
    | simp_all

/-- Claim C8, counterexample: a `json.Marshal` failure in the Kick adapter
runs `log.Fatalf`, terminating the process, instead of abandoning the cycle
without a crash. -/
theorem kick_marshal_failure_crash :
    (kickLoopScrapedLivestream {} {}
        (some { url := "u", livestream := { isLive := true, id := 7 } }) false true).result =
      .fatalExit ∧
    Outcome.fatalExit ≠ Outcome.ok := ⟨rfl, by decide⟩

/-- Claim C8 amended: on a serialization failure the two YouTube adapters
log, abandon the cycle, return success and leave the ledger untouched with
no publish attempted, so the next poll retries naturally; the Kick adapter
instead terminates the process via `log.Fatalf` (ledger equally untouched,
no publish attempted). -/
theorem marshal_failure_handling :
    (∀ (cfg : Config) (s : State) (ids : List String) (etag2 vetag : String)
       (v : Video) (vs : List Video) (p : Bool),
       0 < ids.length →
       s.sentVODs.contains ("youtube:" ++ v.id) = false →
       CheckPriority .youtube cfg s.currentStreams = true →
       apiCheckLivestream cfg s (.resp ids etag2) (.resp (v :: vs) vetag) false p =
         ⟨{ s with
              searchETag := etag2,
              currentStreams := { s.currentStreams with youtube := apiVOD cfg v } },
           [Ev.dump] ++
             (if cfg.notifyOnReceive then
               [Ev.notifyReceiveMsg (GetReceiveMessage "YouTube" v.id)] else []) ++
             [Ev.registrySet .youtube (apiVOD cfg v)], .ok⟩) ∧
    (∀ (cfg : Config) (s : State) (id : String) (d : VideoMicrodata) (p : Bool),
       id ≠ "" →
       s.sentVODs.contains ("youtube:" ++ id) = false →
       CheckPriority .youtube cfg s.currentStreams = true →
       scraperCheckLivestream cfg s id (.info d) false p =
         ⟨{ s with currentStreams := { s.currentStreams with youtube := scraperVOD cfg id d } },
           (if cfg.notifyOnReceive then
             [Ev.notifyReceiveMsg (GetReceiveMessage "YouTube" id)] else []) ++
             [Ev.registrySet .youtube (scraperVOD cfg id d)], .ok⟩) ∧
    (∀ (cfg : Config) (s : State) (stream : KickAPI) (p : Bool),
       stream.livestream.isLive = true →
       s.sentVODs.contains ("kick:" ++ toString stream.livestream.id) = false →
       s.currentStreams.youtube.vid = "" →
       kickLoopScrapedLivestream cfg s (some stream) false p =
         ⟨{ s with currentStreams := { s.currentStreams with kick := kickVOD stream } },
           (if cfg.pluginEnabled then [Ev.luaReceive (toString stream.livestream.id)] else []) ++
             [Ev.registrySet .kick (kickVOD stream)], .fatalExit⟩) := by
  refine ⟨?_, ?_, ?_⟩
  · intro cfg s ids etag2 vetag v vs p hids hmem hprio
    unfold apiCheckLivestream
    dsimp only
    repeat' split
    all_goals simp_all [getLivestreamID, getVideoInfo]
  · intro cfg s id d p hid hmem hprio
    unfold scraperCheckLivestream
    dsimp only
    repeat' split
    all_goals simp_all
  · intro cfg s stream p hlive hmem harb
    unfold kickLoopScrapedLivestream
    dsimp only
    repeat' split
    all_goals simp_all

/-- Witness for C8 amended: concrete marshal-failure runs on the YouTube API
adapter (cycle abandoned, nil returned) and the Kick adapter (fatal exit). -/
theorem marshal_failure_handling_witness :
    apiCheckLivestream {} {} (.resp ["abc"] "e2") (.resp [{ id := "abc" }] "ve") false true =
      ⟨{ currentStreams := { youtube := apiVOD {} { id := "abc" } }, searchETag := "e2" },
        [Ev.dump, Ev.registrySet .youtube (apiVOD {} { id := "abc" })], .ok⟩ ∧
    kickLoopScrapedLivestream {} {}
        (some { url := "u", livestream := { isLive := true, id := 7 } }) false true =
      ⟨{ currentStreams := { kick := kickVOD { url := "u", livestream := { isLive := true, id := 7 } } } },
        [Ev.registrySet .kick (kickVOD { url := "u", livestream := { isLive := true, id := 7 } })],
        .fatalExit⟩ := by
  exact ⟨marshal_failure_handling.1 {} {} ["abc"] "e2" "ve" { id := "abc" } [] true
      (by decide) (by decide) (by decide),
    marshal_failure_handling.2.2 {} {} { url := "u", livestream := { isLive := true, id := 7 } } true
      rfl (by decide) rfl⟩

/-- Claim C9, counterexample: the send message renders only the platform and
the stream id — two job records differing in every other field render the
same send message, so it does not render the full set of Job Record fields. -/
theorem send_template_ignores_fields :
    GetSendMessage { platform := "youtube", vid := "123", title := "XYZW" } =
      GetSendMessage { platform := "youtube", vid := "123", title := "other" } ∧
    GetSendMessage { platform := "youtube", vid := "123", title := "XYZW" } =
      "Platform: youtube\nID: 123" := ⟨rfl, rfl⟩

/-- Claim C9 amended: the receive message renders the platform name and the
stream id, and the send message renders exactly the same two fields (the
two templates are identical), not the full Job Record. -/
theorem send_renders_platform_id_only (vod : VOD) :
    GetReceiveMessage vod.platform vod.vid =
      ("Platform: " ++ vod.platform) ++ ("\nID: " ++ vod.vid) ∧
    GetSendMessage vod = GetReceiveMessage vod.platform vod.vid := by
  constructor
  · simp [GetReceiveMessage, render, receiveTemplate, String.append_assoc]
  · rfl

/-- Claim C10 (ledger monotonicity): every check invocation of every adapter
either leaves the dispatch ledger unchanged or appends exactly one key at
its end, so each reachable ledger extends every earlier one. -/
theorem ledger_append_only :
    (∀ (cfg : Config) (s : State) (search : SearchResult) (videosQ : VideosResult) (m p : Bool),
       ∃ suffix, suffix.length ≤ 1 ∧
         (apiCheckLivestream cfg s search videosQ m p).state.sentVODs = s.sentVODs ++ suffix) ∧
    (∀ (cfg : Config) (s : State) (scraped : Option KickAPI) (m p : Bool),
       ∃ suffix, suffix.length ≤ 1 ∧
         (kickLoopScrapedLivestream cfg s scraped m p).state.sentVODs = s.sentVODs ++ suffix) ∧
    (∀ (cfg : Config) (s : State) (id : String) (infoQ : InfoResult) (m p : Bool),
       ∃ suffix, suffix.length ≤ 1 ∧
         (scraperCheckLivestream cfg s id infoQ m p).state.sentVODs = s.sentVODs ++ suffix) := by
  refine ⟨?_, ?_, ?_⟩
  · intro cfg s search videosQ m p
    unfold apiCheckLivestream
    dsimp only
    repeat' split
    all_goals first
      | ((refine ⟨[], ?_, ?_⟩ <;> simp); done)
      | ((refine ⟨_, ?_, rfl⟩ <;> simp); done)
  · intro cfg s scraped m p
    unfold kickLoopScrapedLivestream
    dsimp only
    repeat' split
    all_goals first
      | ((refine ⟨[], ?_, ?_⟩ <;> simp); done)
      | ((refine ⟨_, ?_, rfl⟩ <;> simp); done)
  · intro cfg s id infoQ m p
    unfold scraperCheckLivestream
    dsimp only
    repeat' split
    all_goals first
      | ((refine ⟨[], ?_, ?_⟩ <;> simp); done)
      | ((refine ⟨_, ?_, rfl⟩ <;> simp); done)

end Notifier
